import Mathlib

/-
  Verification of the key-management / envelope-encryption core of the
  daily-notes application (AuthService + CryptoService).

  Shallow embedding conventions:
  * Random byte strings (salts, IVs, UUIDs, raw DEK bytes) are modelled as
    natural numbers drawn from a fresh-value counter `rng` threaded through
    the state, mirroring the sequence of `randBytes` / `randomUUID` /
    `generateDEK` calls in source order.
  * PBKDF2 key derivation (`deriveKEK`) is deterministic in the source, so a
    KEK is modelled symbolically as the pair (password, salt).
  * AES-GCM wrap/unwrap and encrypt/decrypt are modelled symbolically: an
    envelope records the key it was produced under and its plaintext payload;
    unwrapping/decrypting under a different key fails (the AEAD tag check),
    under the same key it returns the payload.
  * JSON (de)serialization of the note collection is an opaque collaborator
    in the spec, modelled as the identity on an abstract note list.
  * JavaScript exceptions become an explicit error component: every stateful
    operation returns the post-call state together with `Option AuthError`
    (`none` = normal return).  Mutations performed before a throw are kept in
    the returned state, matching JS semantics of `this.x = ...` before a
    `throw`.
  * `localStorage` keys: the accounts list (kept in sync with the `accounts`
    signal by the source at every write), the master-meta record, and the
    per-account note blobs (a map from account id).
-/

namespace DailyNotes

/-- Error taxonomy; each constructor corresponds to one `throw new Error(...)`
site of the source (or an uncaught WebCrypto failure). -/
inductive AuthError where
  /-- `Account not found` -/
  | accountNotFound
  /-- `Invalid password.` (spec name: InvalidPassword) -/
  | invalidPassword
  /-- `Master access not configured for this account.` (spec: MasterNotConfigured) -/
  | masterNotConfigured
  /-- `Account not configured for master unwrap` (spec: AccountNotMasterEnabled) -/
  | accountNotMasterEnabled
  /-- `Not logged in` (spec: NotLoggedIn) -/
  | notLoggedIn
  /-- `Master meta not initialized` (thrown raw by getMasterMeta) -/
  | masterMetaNotInitialized
  /-- uncaught WebCrypto AEAD authentication failure (OperationError) -/
  | authenticationError
deriving DecidableEq, Repr

/-- JavaScript `String.prototype.trim()` (used on the password typed at
login): drop whitespace from both ends. -/
def trimString (s : String) : String :=
  ⟨((s.data.dropWhile Char.isWhitespace).reverse.dropWhile
      Char.isWhitespace).reverse⟩

/-- A key-encryption-key. `crypto.subtle.deriveKey` (PBKDF2-SHA256, 200000
iterations) is a deterministic function of password and salt, so the KEK is
represented by that pair. -/
structure KEK where
  pw : String
  salt : Nat
deriving DecidableEq, Repr

/-- CryptoService.deriveKEK. -/
def deriveKEK (password : String) (saltB64 : Nat) : KEK :=
  ⟨password, saltB64⟩

/-- Result of CryptoService.wrapDEK: AES-GCM ciphertext `{iv, data}` of the
raw DEK bytes under a KEK.  Symbolically it records the iv, the wrapping key
and the wrapped payload. -/
structure Envelope where
  iv : Nat
  kek : KEK
  payload : Nat
deriving DecidableEq, Repr

/-- CryptoService.wrapDEK, with the fresh random iv passed explicitly. -/
def wrapDEK (dek : Nat) (kek : KEK) (iv : Nat) : Envelope :=
  ⟨iv, kek, dek⟩

/-- CryptoService.unwrapDEK: AES-GCM decryption authenticates, so unwrapping
under any key other than the wrapping key fails (None); under the wrapping
key it returns the raw DEK bytes. -/
def unwrapDEK (w : Envelope) (kek : KEK) : Option Nat :=
  if w.kek = kek then some w.payload else none

/-- Result of CryptoService.encryptString applied to the serialized note
collection (the note blob `{iv, data}`). -/
structure NotesBlob where
  iv : Nat
  dekKey : Nat
  notes : List Nat
deriving DecidableEq, Repr

/-- CryptoService.encryptString on `JSON.stringify(notes)`, with the fresh iv
explicit; serialization is modelled as the identity on the note list. -/
def encryptString (notes : List Nat) (dek : Nat) (iv : Nat) : NotesBlob :=
  ⟨iv, dek, notes⟩

/-- CryptoService.decryptString followed by `JSON.parse`: fails under a key
other than the encryption key, else returns the stored collection. -/
def decryptString (b : NotesBlob) (dek : Nat) : Option (List Nat) :=
  if b.dekKey = dek then some b.notes else none

/-- AccountMeta record persisted in `diary_accounts_v1`. -/
structure AccountMeta where
  id : Nat
  name : String
  createdAt : Nat
  saltB64 : Nat
  dekWrappedByAccount : Envelope
  dekWrappedByMaster : Option Envelope
deriving DecidableEq, Repr

/-- Whole-service state: AuthService fields plus the localStorage records it
touches.  `masterSecret` is the readonly `MASTER_SECRET` configuration
(`environment.masterSecret || ''`).  `rng` is the fresh-randomness counter,
`now` stands for `Date.now()`. -/
structure AuthState where
  masterSecret : String
  accounts : List AccountMeta
  masterMeta : Option Nat
  notesStore : Nat → Option NotesBlob
  currentAccountId : Option Nat
  dek : Option Nat
  rng : Nat
  now : Nat

/-- AuthService.ensureMasterMeta (constructor): create the master salt record
if absent, never regenerate it. -/
def ensureMasterMeta (s : AuthState) : AuthState :=
  match s.masterMeta with
  | some _ => s
  | none => { s with masterMeta := some s.rng, rng := s.rng + 1 }

/-- AuthService.saveNotesBlob: encrypt the collection under `dek` with a
fresh iv and overwrite the account's blob wholesale. -/
def saveNotesBlob (s : AuthState) (id : Nat) (dek : Nat) (notes : List Nat) :
    AuthState :=
  let blob := encryptString notes dek s.rng
  { s with
    notesStore := fun k => if k = id then some blob else s.notesStore k
    rng := s.rng + 1 }

/-- AuthService.registerAccount.  Fresh values in source order: account id
(randomUUID), per-account salt, DEK, account-wrap iv, master-wrap iv, and
then the iv of the initial empty blob inside saveNotesBlob.
`getMasterMeta` throws before any state is written when the master-meta
record is missing. -/
def registerAccount (s : AuthState) (name accountPassword : String) :
    AuthState × Option AuthError :=
  let id := s.rng
  let saltB64 := s.rng + 1
  let dek := s.rng + 2
  let kekAcc := deriveKEK accountPassword saltB64
  let dekByAcc := wrapDEK dek kekAcc (s.rng + 3)
  match s.masterMeta with
  | none => (s, some .masterMetaNotInitialized)
  | some mmSalt =>
    let kekMaster := deriveKEK s.masterSecret mmSalt
    let dekByMaster := wrapDEK dek kekMaster (s.rng + 4)
    let meta : AccountMeta :=
      ⟨id, name, s.now, saltB64, dekByAcc, some dekByMaster⟩
    let s1 := { s with accounts := meta :: s.accounts, rng := s.rng + 5 }
    (saveNotesBlob s1 id dek [], none)

/-- Path 1 of loginWithAccount: the typed (trimmed) password equals the
configured master secret.  No try/catch here: a missing master-meta record or
an AEAD failure propagates raw. -/
def masterPathLogin (s : AuthState) (acc : AccountMeta) (id : Nat) :
    AuthState × Option AuthError :=
  match acc.dekWrappedByMaster with
  | none => (s, some .masterNotConfigured)
  | some wm =>
    match s.masterMeta with
    | none => (s, some .masterMetaNotInitialized)
    | some mmSalt =>
      match unwrapDEK wm (deriveKEK s.masterSecret mmSalt) with
      | none => (s, some .authenticationError)
      | some d => ({ s with dek := some d, currentAccountId := some id }, none)

/-- Path 2 of loginWithAccount (the try/catch block): unwrap the account
envelope under the KEK derived from the trimmed password; on success set the
session, then (best-effort in intent, but inside the same catch) migrate a
missing master wrap.  Any throw in the block — including one from the
migration step, after the session fields were already assigned — is caught
and re-thrown as `Invalid password.`. -/
def accountPathLogin (s : AuthState) (acc : AccountMeta) (id : Nat)
    (pw : String) : AuthState × Option AuthError :=
  match unwrapDEK acc.dekWrappedByAccount (deriveKEK pw acc.saltB64) with
  | none => (s, some .invalidPassword)
  | some d =>
    let s1 := { s with dek := some d, currentAccountId := some id }
    if s.masterSecret ≠ "" ∧ acc.dekWrappedByMaster = none then
      match s1.masterMeta with
      | none => (s1, some .invalidPassword)
      | some mmSalt =>
        let wrappedByMaster := wrapDEK d (deriveKEK s.masterSecret mmSalt) s1.rng
        let updated := { acc with dekWrappedByMaster := some wrappedByMaster }
        ({ s1 with
            accounts := s1.accounts.map fun a =>
              if a.id = acc.id then updated else a
            rng := s1.rng + 1 }, none)
    else (s1, none)

/-- AuthService.loginWithAccount: find the account, trim the supplied
password, take the master path when the master secret is configured and the
trimmed password equals it, else the account path. -/
def loginWithAccount (s : AuthState) (id : Nat) (password : String) :
    AuthState × Option AuthError :=
  match s.accounts.find? (fun a => a.id == id) with
  | none => (s, some .accountNotFound)
  | some acc =>
    let pw := trimString password
    if s.masterSecret ≠ "" ∧ pw = s.masterSecret then
      masterPathLogin s acc id
    else
      accountPathLogin s acc id pw

/-- AuthService.logout. -/
def logout (s : AuthState) : AuthState :=
  { s with currentAccountId := none, dek := none }

/-- AuthService.loadNotes: with no session (`!this.dek ||
!this.currentAccountId()`) it returns the empty collection; with a session it
reads the blob (absent means empty) and decrypts under the session DEK. -/
def loadNotes (s : AuthState) : Except AuthError (List Nat) :=
  match s.dek, s.currentAccountId with
  | some d, some id =>
    match s.notesStore id with
    | none => .ok []
    | some blob =>
      match decryptString blob d with
      | none => .error .authenticationError
      | some notes => .ok notes
  | _, _ => .ok []

/-- AuthService.saveNotes: requires a session, then overwrites the blob. -/
def saveNotes (s : AuthState) (notes : List Nat) :
    AuthState × Option AuthError :=
  match s.dek, s.currentAccountId with
  | some d, some id => (saveNotesBlob s id d notes, none)
  | _, _ => (s, some .notLoggedIn)

/-- AuthService.resetAccountPassword: master-unwrap the DEK, re-wrap it under
the new password with a fresh salt, replace `saltB64` and
`dekWrappedByAccount` in place; `dekWrappedByMaster` untouched.  Note: the
master secret itself is not checked against anything. -/
def resetAccountPassword (s : AuthState) (accountId : Nat)
    (newAccountPassword : String) : AuthState × Option AuthError :=
  match s.accounts.find? (fun a => a.id == accountId) with
  | none => (s, some .accountNotFound)
  | some acc =>
    match acc.dekWrappedByMaster with
    | none => (s, some .accountNotMasterEnabled)
    | some wm =>
      match s.masterMeta with
      | none => (s, some .masterMetaNotInitialized)
      | some mmSalt =>
        match unwrapDEK wm (deriveKEK s.masterSecret mmSalt) with
        | none => (s, some .authenticationError)
        | some d =>
          let newSaltB64 := s.rng
          let kekNewAcc := deriveKEK newAccountPassword newSaltB64
          let dekByNewAcc := wrapDEK d kekNewAcc (s.rng + 1)
          let updatedMeta :=
            { acc with saltB64 := newSaltB64, dekWrappedByAccount := dekByNewAcc }
          ({ s with
              accounts := s.accounts.map fun a =>
                if a.id = acc.id then updatedMeta else a
              rng := s.rng + 2 }, none)

/-- An account's two envelopes wrap bit-identical DEK bytes (when the master
wrap is present). -/
def wrapsOk (a : AccountMeta) : Bool :=
  match a.dekWrappedByMaster with
  | none => true
  | some wm => wm.payload == a.dekWrappedByAccount.payload

/-- Registry-wide dual-wrap invariant. -/
def stateInv (s : AuthState) : Bool :=
  s.accounts.all wrapsOk

/-- The AccountMeta record a successful registration builds (master salt
`ms`): fresh id `s.rng`, fresh salt `s.rng+1`, fresh DEK `s.rng+2`, the DEK
wrapped under the account KEK and under the master KEK. -/
def regMeta (s : AuthState) (name pw : String) (ms : Nat) : AccountMeta :=
  { id := s.rng, name := name, createdAt := s.now, saltB64 := s.rng + 1,
    dekWrappedByAccount :=
      wrapDEK (s.rng + 2) (deriveKEK pw (s.rng + 1)) (s.rng + 3),
    dekWrappedByMaster :=
      some (wrapDEK (s.rng + 2) (deriveKEK s.masterSecret ms) (s.rng + 4)) }

/-- The state a successful registration leaves behind: the new record pushed
on the front of the registry, an empty blob encrypted under the fresh DEK. -/
def regState (s : AuthState) (name pw : String) (ms : Nat) : AuthState :=
  { s with
    accounts := regMeta s name pw ms :: s.accounts,
    notesStore := fun k =>
      if k = s.rng then some (encryptString [] (s.rng + 2) (s.rng + 5))
      else s.notesStore k,
    rng := s.rng + 6 }

/-- The AccountMeta record a successful password reset leaves: fresh salt,
the recovered DEK `d` re-wrapped under the new password; the master wrap
field untouched. -/
def resetMeta (acc : AccountMeta) (newPw : String) (d rng : Nat) :
    AccountMeta :=
  { acc with
    saltB64 := rng,
    dekWrappedByAccount := wrapDEK d (deriveKEK newPw rng) (rng + 1) }

/-- The state a successful password reset leaves behind: the found account
replaced in place by `resetMeta` (recovered DEK `d`). -/
def resetState (s : AuthState) (acc : AccountMeta) (newPw : String)
    (d : Nat) : AuthState :=
  { s with
    accounts := s.accounts.map fun a =>
      if a.id = acc.id then resetMeta acc newPw d s.rng else a,
    rng := s.rng + 2 }

/-
  Concrete fixture states used by counterexamples and witnesses.
-/

/-- Fixture: freshly constructed service, master secret `M`, master salt 0,
no accounts yet. -/
def sFreshM : AuthState :=
  { masterSecret := "M", accounts := [], masterMeta := some 0,
    notesStore := fun _ => none, currentAccountId := none, dek := none,
    rng := 1, now := 0 }

/-- Fixture: an account (password `x`, salt 3, DEK 5) with no master wrap. -/
def accNoMaster : AccountMeta :=
  { id := 1, name := "a", createdAt := 0, saltB64 := 3,
    dekWrappedByAccount := wrapDEK 5 (deriveKEK "x" 3) 4,
    dekWrappedByMaster := none }

/-- Fixture: service with master secret `M` and one master-less account. -/
def sC2state : AuthState :=
  { masterSecret := "M", accounts := [accNoMaster], masterMeta := some 0,
    notesStore := fun _ => none, currentAccountId := none, dek := none,
    rng := 9, now := 0 }

/-- Fixture: an account (password `old`, salt 3, DEK 5) whose master wrap was
made under the KEK derived from master secret `M` and master salt 0. -/
def accWithMaster : AccountMeta :=
  { id := 1, name := "a", createdAt := 0, saltB64 := 3,
    dekWrappedByAccount := wrapDEK 5 (deriveKEK "old" 3) 4,
    dekWrappedByMaster := some (wrapDEK 5 (deriveKEK "M" 0) 6) }

/-- Fixture: service with master secret `M` and one master-enabled account. -/
def sC3state : AuthState :=
  { masterSecret := "M", accounts := [accWithMaster], masterMeta := some 0,
    notesStore := fun _ => none, currentAccountId := none, dek := none,
    rng := 9, now := 0 }

/-- Fixture: a logged-in session on account 1 whose stored blob is nonempty
and encrypted under the session DEK. -/
def sC5state : AuthState :=
  { masterSecret := "M", accounts := [accWithMaster], masterMeta := some 0,
    notesStore := fun k => if k = 1 then some (encryptString [42] 5 7) else none,
    currentAccountId := some 1, dek := some 5, rng := 9, now := 0 }

/-- Fixture: master secret configured, account lacks a master wrap (so login
will attempt migration), but the master-meta record is missing from storage,
making the migration step throw. -/
def sC6state : AuthState :=
  { masterSecret := "M", accounts := [accNoMaster], masterMeta := none,
    notesStore := fun _ => none, currentAccountId := none, dek := none,
    rng := 9, now := 0 }

/-- Fixture: an account whose master wrap was made under the KEK derived from
the empty master secret (exactly what registerAccount produces when
`environment.masterSecret` is unset). -/
def accEmptyMaster : AccountMeta :=
  { id := 1, name := "a", createdAt := 0, saltB64 := 3,
    dekWrappedByAccount := wrapDEK 5 (deriveKEK "pw" 3) 4,
    dekWrappedByMaster := some (wrapDEK 5 (deriveKEK "" 0) 6) }

/-- Fixture: service with NO master secret configured. -/
def sC7state : AuthState :=
  { masterSecret := "", accounts := [accEmptyMaster], masterMeta := some 0,
    notesStore := fun _ => none, currentAccountId := none, dek := none,
    rng := 9, now := 0 }

/-- Fixture: a pre-existing account with id 100. -/
def accOld : AccountMeta :=
  { id := 100, name := "old", createdAt := 0, saltB64 := 3,
    dekWrappedByAccount := wrapDEK 5 (deriveKEK "x" 3) 4,
    dekWrappedByMaster := some (wrapDEK 5 (deriveKEK "M" 0) 6) }

/-- Fixture: registry already holding account 100; the next fresh id is 0. -/
def sC9state : AuthState :=
  { masterSecret := "M", accounts := [accOld], masterMeta := some 0,
    notesStore := fun _ => none, currentAccountId := none, dek := none,
    rng := 0, now := 7 }

/-
  Helper lemmas (shared across claims).
-/

/-- Finding an element whose id matches the head. -/
theorem find?_cons_self (meta : AccountMeta) (l : List AccountMeta) (i : Nat)
    (h : meta.id = i) :
    (meta :: l).find? (fun a => a.id == i) = some meta := by
  simp [List.find?, h]

/-- Replacing the found account (by id) and searching again finds the
replacement, provided the replacement keeps the id. -/
theorem find?_map_replace (l : List AccountMeta) (i : Nat)
    (acc u : AccountMeta)
    (h : l.find? (fun a => a.id == i) = some acc) (hu : u.id = acc.id) :
    (l.map fun a => if a.id = acc.id then u else a).find?
      (fun a => a.id == i) = some u := by
  have hacc : acc.id = i := by
    have := List.find?_some h
    simpa using this
  induction l with
  | nil => simp [List.find?] at h
  | cons b t ih =>
    by_cases hb : b.id = i
    · have hba : b = acc := by
        rw [List.find?_cons_of_pos] at h
        · exact Option.some.inj h
        · simpa using hb
      subst hba
      simp only [List.map_cons, eq_self_iff_true, if_true]
      exact find?_cons_self u _ i (hu.trans hacc)
    · have hbacc : ¬ b.id = acc.id := fun hc => hb (hc.trans hacc)
      rw [List.find?_cons_of_neg] at h
      · simp only [List.map_cons]
        rw [if_neg hbacc, List.find?_cons_of_neg]
        · exact ih h
        · simpa using hb
      · simpa using hb

/-- Replacing accounts of a given id by a record that itself satisfies
`wrapsOk` preserves the registry invariant. -/
theorem all_wrapsOk_map_replace (l : List AccountMeta) (j : Nat)
    (u : AccountMeta)
    (h : l.all wrapsOk = true) (hu : wrapsOk u = true) :
    (l.map fun a => if a.id = j then u else a).all wrapsOk = true := by
  rw [List.all_eq_true] at h ⊢
  intro a' ha'
  rcases List.mem_map.mp ha' with ⟨a, ha, rfl⟩
  by_cases hj : a.id = j
  · rw [if_pos hj]; exact hu
  · rw [if_neg hj]; exact h a ha

/-- The account path of login can only end in success or InvalidPassword. -/
theorem accountPathLogin_errors (s : AuthState) (acc : AccountMeta)
    (id : Nat) (pw : String) :
    (accountPathLogin s acc id pw).2 = none ∨
    (accountPathLogin s acc id pw).2 = some .invalidPassword := by
  unfold accountPathLogin
  cases unwrapDEK acc.dekWrappedByAccount (deriveKEK pw acc.saltB64) with
  | none => right; rfl
  | some d =>
    simp only
    split
    · cases hmm : s.masterMeta with
      | none => right; simp [hmm]
      | some mmSalt => left; simp [hmm]
    · left; rfl

/-- The master path of login never reports InvalidPassword and never touches
the registry (in particular not the account wrap). -/
theorem masterPathLogin_shape (s : AuthState) (acc : AccountMeta) (id : Nat) :
    (masterPathLogin s acc id).2 ≠ some .invalidPassword ∧
    (masterPathLogin s acc id).1.accounts = s.accounts := by
  unfold masterPathLogin
  cases acc.dekWrappedByMaster with
  | none => exact ⟨by simp, rfl⟩
  | some wm =>
    simp only
    cases s.masterMeta with
    | none => exact ⟨by simp, rfl⟩
    | some mmSalt =>
      simp only
      cases unwrapDEK wm (deriveKEK s.masterSecret mmSalt) with
      | none => exact ⟨by simp, rfl⟩
      | some d => exact ⟨by simp, rfl⟩

/-- Unfolded form of a successful registration (master-meta record present):
the new record is pushed on the FRONT of the registry, an empty blob
encrypted under the fresh DEK is stored, and the call returns normally. -/
theorem registerAccount_eq (s : AuthState) (name pw : String) (ms : Nat)
    (hmm : s.masterMeta = some ms) :
    registerAccount s name pw = (regState s name pw ms, none) := by
  unfold registerAccount saveNotesBlob regState regMeta
  rw [hmm]

/-- Reduce login to the path dispatch once the account is found. -/
theorem loginWithAccount_eq_found (s : AuthState) (id : Nat)
    (password : String) (acc : AccountMeta)
    (hfind : s.accounts.find? (fun a => a.id == id) = some acc) :
    loginWithAccount s id password =
      if s.masterSecret ≠ "" ∧ trimString password = s.masterSecret then
        masterPathLogin s acc id
      else accountPathLogin s acc id (trimString password) := by
  unfold loginWithAccount
  rw [hfind]

/-- Successful master-path login: the session DEK is the payload of the
master envelope. -/
theorem masterPathLogin_eq_some (s : AuthState) (acc : AccountMeta)
    (id : Nat) (wm : Envelope) (ms : Nat)
    (hwm : acc.dekWrappedByMaster = some wm)
    (hmm : s.masterMeta = some ms)
    (hkek : wm.kek = deriveKEK s.masterSecret ms) :
    masterPathLogin s acc id =
      ({ s with dek := some wm.payload, currentAccountId := some id },
        none) := by
  unfold masterPathLogin
  rw [hwm, hmm]
  simp [unwrapDEK, hkek]

/-- Successful account-path login on an account that already has a master
wrap: no migration, the session DEK is the account envelope's payload. -/
theorem accountPathLogin_eq_success (s : AuthState) (acc : AccountMeta)
    (id : Nat) (pw : String) (wm : Envelope)
    (hkek : acc.dekWrappedByAccount.kek = deriveKEK pw acc.saltB64)
    (hwm : acc.dekWrappedByMaster = some wm) :
    accountPathLogin s acc id pw =
      ({ s with
          dek := some acc.dekWrappedByAccount.payload,
          currentAccountId := some id }, none) := by
  unfold accountPathLogin
  simp only [unwrapDEK, if_pos hkek]
  rw [if_neg]
  intro h
  rw [hwm] at h
  exact Option.noConfusion h.2

/-- Account-path login under a KEK that does not match the account envelope
fails with InvalidPassword and leaves the state unchanged. -/
theorem accountPathLogin_eq_fail (s : AuthState) (acc : AccountMeta)
    (id : Nat) (pw : String)
    (hkek : acc.dekWrappedByAccount.kek ≠ deriveKEK pw acc.saltB64) :
    accountPathLogin s acc id pw = (s, some .invalidPassword) := by
  unfold accountPathLogin
  simp only [unwrapDEK, if_neg hkek]

/-
  Claim theorems.
-/

/-- C1 (amended): for an account registered with password `p` whose trimmed
form is `p` itself, `login(id, p)` succeeds (whichever path it takes) and the
session DEK decrypts the account's stored blob; and `login(id, sec)` fails
with InvalidPassword for any `sec` whose trimmed form differs from `p` and
from the configured master secret.  (The original claim, without trimming,
is refuted by `C1_counterexample`.) -/
theorem C1_register_login (s : AuthState) (name p sec : String) (ms : Nat)
    (hmm : s.masterMeta = some ms)
    (hp : trimString p = p)
    (hsec : trimString sec ≠ p)
    (hsecm : s.masterSecret = "" ∨ trimString sec ≠ s.masterSecret) :
    (registerAccount s name p).2 = none ∧
    (loginWithAccount (registerAccount s name p).1 s.rng p).2 = none ∧
    (loginWithAccount (registerAccount s name p).1 s.rng p).1.dek =
      some (s.rng + 2) ∧
    loadNotes (loginWithAccount (registerAccount s name p).1 s.rng p).1 =
      .ok [] ∧
    (loginWithAccount (registerAccount s name p).1 s.rng sec).2 =
      some .invalidPassword := by
  rw [registerAccount_eq s name p ms hmm]
  have hfind : (regState s name p ms).accounts.find?
      (fun a => a.id == s.rng) = some (regMeta s name p ms) :=
    find?_cons_self _ _ _ rfl
  have hloadOk : loadNotes
      ({ regState s name p ms with
          dek := some (s.rng + 2), currentAccountId := some s.rng }) =
      .ok [] := by
    simp [loadNotes, regState, decryptString, encryptString]
  refine ⟨rfl, ?_⟩
  show (loginWithAccount (regState s name p ms) s.rng p).2 = none ∧ _
  rw [loginWithAccount_eq_found _ _ _ _ hfind,
      loginWithAccount_eq_found _ _ _ _ hfind]
  have hsuccess := accountPathLogin_eq_success (regState s name p ms)
    (regMeta s name p ms) s.rng (trimString p)
    (wrapDEK (s.rng + 2) (deriveKEK s.masterSecret ms) (s.rng + 4))
    (by rw [hp]; rfl) rfl
  have hfail := accountPathLogin_eq_fail (regState s name p ms)
    (regMeta s name p ms) s.rng (trimString sec)
    (fun h => hsec (congrArg KEK.pw h).symm)
  by_cases hms : s.masterSecret = ""
  · -- no master secret configured: both logins take the account path
    rw [if_neg (fun h => h.1 hms), if_neg (fun h => h.1 hms)]
    rw [hsuccess, hfail]
    exact ⟨rfl, rfl, hloadOk, rfl⟩
  · have hsec2 : trimString sec ≠ s.masterSecret := hsecm.resolve_left hms
    by_cases hpm : p = s.masterSecret
    · -- registered password happens to equal the master secret: master path
      rw [if_pos ⟨hms, hp.trans hpm⟩, if_neg (fun h => hsec2 h.2)]
      rw [masterPathLogin_eq_some (regState s name p ms)
            (regMeta s name p ms) s.rng
            (wrapDEK (s.rng + 2) (deriveKEK s.masterSecret ms) (s.rng + 4))
            ms rfl (show (regState s name p ms).masterMeta = some ms from hmm)
            rfl,
          hfail]
      exact ⟨rfl, rfl, hloadOk, rfl⟩
    · rw [if_neg (fun h => hpm (hp.symm.trans h.2)),
          if_neg (fun h => hsec2 h.2)]
      rw [hsuccess, hfail]
      exact ⟨rfl, rfl, hloadOk, rfl⟩

/-- C1 counterexample: register an account with password `p ` (trailing
space).  The claim says `login(id, p)` succeeds for the registered password
`p`, but login trims the typed password while registration does not, so
supplying the exact registered password fails with InvalidPassword. -/
theorem C1_counterexample :
    (registerAccount sFreshM "alice" "p ").2 = none ∧
    (loginWithAccount (registerAccount sFreshM "alice" "p ").1 1 "p ").2 =
      some AuthError.invalidPassword := by decide

/-- C1 witness: the amended theorem applied to a concrete registration. -/
theorem C1_witness :
    (registerAccount sFreshM "alice" "pw").2 = none ∧
    (loginWithAccount (registerAccount sFreshM "alice" "pw").1 1 "pw").2 =
      none ∧
    (loginWithAccount (registerAccount sFreshM "alice" "pw").1 1 "zz").2 =
      some AuthError.invalidPassword :=
  have h := C1_register_login sFreshM "alice" "pw" "zz" 0 rfl (by decide)
    (by decide) (Or.inr (by decide))
  ⟨h.1, h.2.1, h.2.2.2.2⟩

/-- C9 (amended): registration PREPENDS the new AccountMeta at the front of
the persisted registry (`[meta, ...accounts]`); existing records keep their
relative order but FOLLOW the new one.  The original "appends at the end"
claim is refuted by `C9_counterexample`. -/
theorem C9_register_prepends (s : AuthState) (name pw : String) (ms : Nat)
    (hmm : s.masterMeta = some ms) :
    (registerAccount s name pw).2 = none ∧
    (registerAccount s name pw).1.accounts =
      regMeta s name pw ms :: s.accounts := by
  rw [registerAccount_eq s name pw ms hmm]
  exact ⟨rfl, rfl⟩

/-- C9 counterexample: with an existing account (id 100) in the registry,
the freshly registered account (id 0) ends up FIRST, not last. -/
theorem C9_counterexample :
    (registerAccount sC9state "bob" "x").2 = none ∧
    ((registerAccount sC9state "bob" "x").1.accounts.map fun a => a.id) =
      [0, 100] ∧
    ((registerAccount sC9state "bob" "x").1.accounts.map fun a => a.id) ≠
      [100, 0] := by decide

/-- C9 witness: the amended theorem applied to the concrete registry. -/
theorem C9_witness :
    (registerAccount sC9state "bob" "x").1.accounts =
      regMeta sC9state "bob" "x" 0 :: sC9state.accounts :=
  (C9_register_prepends sC9state "bob" "x" 0 rfl).2

/-- C10: registerAccount unconditionally wraps the fresh DEK under the KEK
derived from the configured master secret string (whatever it is, including
the empty string) and requires the master-meta record to exist — it throws
before persisting anything when that record is missing.  Hence every freshly
registered account has `dekWrappedByMaster` present. -/
theorem C10_register_always_master_wraps (s t : AuthState)
    (name pw name₂ pw₂ : String) (ms : Nat)
    (hmm : s.masterMeta = some ms) (ht : t.masterMeta = none) :
    (registerAccount s name pw).2 = none ∧
    ((registerAccount s name pw).1.accounts.head?.bind
        fun a => a.dekWrappedByMaster) =
      some (wrapDEK (s.rng + 2) (deriveKEK s.masterSecret ms) (s.rng + 4)) ∧
    registerAccount t name₂ pw₂ =
      (t, some AuthError.masterMetaNotInitialized) := by
  refine ⟨?_, ?_, ?_⟩
  · exact congrArg Prod.snd (registerAccount_eq s name pw ms hmm)
  · exact congrArg
      (fun r => r.1.accounts.head?.bind fun a => a.dekWrappedByMaster)
      (registerAccount_eq s name pw ms hmm)
  · unfold registerAccount
    rw [ht]

/-- C10 witness: concrete registrations, with and without the master-meta
record present (the latter also exercises the empty-blob failure path). -/
theorem C10_witness :
    (registerAccount sFreshM "carol" "cc").2 = none ∧
    ((registerAccount sFreshM "carol" "cc").1.accounts.head?.bind
        fun a => a.dekWrappedByMaster) =
      some (wrapDEK 3 (deriveKEK "M" 0) 5) ∧
    registerAccount sC6state "dave" "dd" =
      (sC6state, some AuthError.masterMetaNotInitialized) :=
  C10_register_always_master_wraps sFreshM sC6state "carol" "cc" "dave" "dd"
    0 rfl rfl

/-- C2 (amended): the dual-path dispatch is decided by the TRIMMED supplied
secret (the original "equals it exactly" claim is refuted by
`C2_counterexample`).  Master path iff a master secret is configured and the
trimmed secret equals it; there the absence of `dekWrappedByMaster` fails
with MasterNotConfigured, InvalidPassword is never reported, and the
registry (in particular the account wrap) is untouched.  Otherwise the
account path runs on the trimmed secret: an unwrap failure fails the whole
call with InvalidPassword and the state unchanged, and no outcome other than
success or InvalidPassword is possible (no fallback to the master path). -/
theorem C2_dual_path (s : AuthState) (id : Nat) (password : String)
    (acc : AccountMeta)
    (hfind : s.accounts.find? (fun a => a.id == id) = some acc) :
    ((s.masterSecret ≠ "" ∧ trimString password = s.masterSecret) →
      loginWithAccount s id password = masterPathLogin s acc id ∧
      (acc.dekWrappedByMaster = none →
        loginWithAccount s id password =
          (s, some AuthError.masterNotConfigured)) ∧
      (loginWithAccount s id password).2 ≠ some AuthError.invalidPassword ∧
      (loginWithAccount s id password).1.accounts = s.accounts) ∧
    (¬(s.masterSecret ≠ "" ∧ trimString password = s.masterSecret) →
      loginWithAccount s id password =
        accountPathLogin s acc id (trimString password) ∧
      (unwrapDEK acc.dekWrappedByAccount
          (deriveKEK (trimString password) acc.saltB64) = none →
        loginWithAccount s id password =
          (s, some AuthError.invalidPassword)) ∧
      ((loginWithAccount s id password).2 = none ∨
        (loginWithAccount s id password).2 =
          some AuthError.invalidPassword)) := by
  rw [loginWithAccount_eq_found s id password acc hfind]
  constructor
  · intro hc
    rw [if_pos hc]
    refine ⟨rfl, ?_, (masterPathLogin_shape s acc id).1,
      (masterPathLogin_shape s acc id).2⟩
    intro hnone
    unfold masterPathLogin
    rw [hnone]
  · intro hc
    rw [if_neg hc]
    refine ⟨rfl, ?_, accountPathLogin_errors s acc id (trimString password)⟩
    intro hunwrap
    unfold accountPathLogin
    rw [hunwrap]

/-- C2 counterexample: with master secret `M`, supplying ` M` (leading
space, hence NOT exactly equal to the master secret) still takes the master
path: on an account without a master wrap it fails MasterNotConfigured where
the claim predicts the account path and InvalidPassword. -/
theorem C2_counterexample :
    (loginWithAccount sC2state 1 " M").2 =
      some AuthError.masterNotConfigured ∧
    " M" ≠ sC2state.masterSecret := by decide

/-- C2 witness: the amended theorem applied to the concrete state. -/
theorem C2_witness :
    loginWithAccount sC2state 1 " M" =
      (sC2state, some AuthError.masterNotConfigured) :=
  ((C2_dual_path sC2state 1 " M" accNoMaster (by decide)).1
    (by decide)).2.1 (by decide)

/-- C5 (amended): with no active session — in particular right after
`logout()` — `loadNotes()` returns the EMPTY collection normally; it does
not fail with NotLoggedIn (that error is reserved for `saveNotes`).  The
original claim is refuted by `C5_counterexample`. -/
theorem C5_loadNotes_empty_when_loggedOut (s t : AuthState)
    (h : s.dek = none ∨ s.currentAccountId = none) :
    loadNotes s = .ok [] ∧ loadNotes (logout t) = .ok [] := by
  refine ⟨?_, rfl⟩
  rcases h with h | h
  · simp [loadNotes, h]
  · cases hd : s.dek with
    | none => simp [loadNotes, hd]
    | some d => simp [loadNotes, hd, h]

/-- C5 counterexample: after logging out of a session whose account has a
nonempty stored blob, loadNotes returns ok [] — not the NotLoggedIn error
the claim requires. -/
theorem C5_counterexample :
    loadNotes (logout sC5state) = Except.ok [] ∧
    loadNotes (logout sC5state) ≠ Except.error AuthError.notLoggedIn := by
  refine ⟨rfl, ?_⟩
  intro h
  rw [show loadNotes (logout sC5state) = Except.ok [] from rfl] at h
  exact Except.noConfusion h

/-- C5 witness: the amended theorem applied to concrete states. -/
theorem C5_witness :
    loadNotes (logout sC5state) = Except.ok [] ∧
    loadNotes (logout sC3state) = Except.ok [] :=
  C5_loadNotes_empty_when_loggedOut (logout sC5state) sC3state (Or.inl rfl)

/-- C6: the migration step is NOT best-effort in the code.  Concrete run:
master secret `M` configured, account 1 lacks a master wrap, the master-meta
record is missing.  The account password unwraps fine and the session fields
are assigned, but the migration step throws, the surrounding catch re-throws
`Invalid password.` — the login call FAILS even though the session was
established (dek and currentAccountId are set in the post state). -/
theorem C6_migration_failure_fails_login :
    (loginWithAccount sC6state 1 "x").2 = some AuthError.invalidPassword ∧
    (loginWithAccount sC6state 1 "x").1.dek = some 5 ∧
    (loginWithAccount sC6state 1 "x").1.currentAccountId = some 1 := by
  decide

/-- C7 (amended): with no master secret configured, login indeed never takes
the master path (the empty trimmed secret is never compared equal, thanks to
the JS truthiness guard), and login never reports MasterNotConfigured; but
`resetAccountPassword` does NOT fail MasterNotConfigured — it derives the
master KEK from the empty string and SUCCEEDS whenever the stored master
wrap was produced under that KEK (which is exactly what registration does
when the master secret is unset).  The original claim is refuted by
`C7_counterexample`. -/
theorem C7_unconfigured_master (s t : AuthState) (id aid : Nat)
    (password newPw : String) (acc acc₂ : AccountMeta) (wm : Envelope)
    (ms : Nat)
    (hs : s.masterSecret = "")
    (hfind : s.accounts.find? (fun a => a.id == id) = some acc)
    (ht : t.masterSecret = "")
    (hfind₂ : t.accounts.find? (fun a => a.id == aid) = some acc₂)
    (hwm : acc₂.dekWrappedByMaster = some wm)
    (hmm : t.masterMeta = some ms)
    (hkek : wm.kek = deriveKEK "" ms) :
    loginWithAccount s id password =
      accountPathLogin s acc id (trimString password) ∧
    (loginWithAccount s id password).2 ≠
      some AuthError.masterNotConfigured ∧
    (resetAccountPassword t aid newPw).2 = none := by
  have hlogin : loginWithAccount s id password =
      accountPathLogin s acc id (trimString password) := by
    rw [loginWithAccount_eq_found s id password acc hfind,
        if_neg (fun h => h.1 hs)]
  refine ⟨hlogin, ?_, ?_⟩
  · rw [hlogin]
    rcases accountPathLogin_errors s acc id (trimString password) with h | h <;>
      rw [h] <;> simp
  · unfold resetAccountPassword
    rw [hfind₂]
    dsimp only
    rw [hwm]
    dsimp only
    rw [hmm]
    dsimp only
    rw [ht]
    simp [unwrapDEK, hkek]

/-- C7 counterexample: master secret unconfigured (empty), yet
resetAccountPassword SUCCEEDS on an account whose master wrap was produced
under the empty-secret KEK, instead of failing MasterNotConfigured. -/
theorem C7_counterexample :
    sC7state.masterSecret = "" ∧
    (resetAccountPassword sC7state 1 "new").2 = none := by decide

/-- C7 witness: the amended theorem applied to the concrete state. -/
theorem C7_witness :
    loginWithAccount sC7state 1 "x" =
      accountPathLogin sC7state accEmptyMaster 1 (trimString "x") ∧
    (resetAccountPassword sC7state 1 "new").2 = none :=
  have h := C7_unconfigured_master sC7state sC7state 1 1 "x" "new"
    accEmptyMaster accEmptyMaster (wrapDEK 5 (deriveKEK "" 0) 6) 0
    rfl (by decide) rfl (by decide) rfl rfl rfl
  ⟨h.1, h.2.2⟩

/-- C8: with an active session, saveNotes followed by loadNotes returns the
saved collection (deep equality), including the empty collection — the blob
is overwritten wholesale and decrypted under the same session DEK. -/
theorem C8_save_load_roundtrip (s : AuthState) (d id : Nat) (X : List Nat)
    (h1 : s.dek = some d) (h2 : s.currentAccountId = some id) :
    (saveNotes s X).2 = none ∧ loadNotes (saveNotes s X).1 = .ok X := by
  unfold saveNotes
  rw [h1, h2]
  refine ⟨rfl, ?_⟩
  simp [loadNotes, saveNotesBlob, decryptString, encryptString, h1, h2]

/-- C8 witness: concrete save/load round trips, nonempty and empty. -/
theorem C8_witness :
    ((saveNotes sC5state [7, 8]).2 = none ∧
      loadNotes (saveNotes sC5state [7, 8]).1 = .ok [7, 8]) ∧
    ((saveNotes sC5state []).2 = none ∧
      loadNotes (saveNotes sC5state []).1 = .ok []) :=
  ⟨C8_save_load_roundtrip sC5state 5 1 [7, 8] rfl rfl,
    C8_save_load_roundtrip sC5state 5 1 [] rfl rfl⟩

/-- Unfolded form of a successful password reset: the found account is
replaced (at its position) by `resetMeta` and the call returns normally. -/
theorem resetAccountPassword_eq (s : AuthState) (aid : Nat) (newPw : String)
    (acc : AccountMeta) (wm : Envelope) (ms : Nat)
    (hfind : s.accounts.find? (fun a => a.id == aid) = some acc)
    (hwm : acc.dekWrappedByMaster = some wm)
    (hmm : s.masterMeta = some ms)
    (hkek : wm.kek = deriveKEK s.masterSecret ms) :
    resetAccountPassword s aid newPw =
      (resetState s acc newPw wm.payload, none) := by
  unfold resetAccountPassword
  rw [hfind]
  dsimp only
  rw [hwm]
  dsimp only
  rw [hmm]
  dsimp only
  simp [unwrapDEK, hkek, resetMeta, resetState, hwm, hmm]

/-- C3 (amended): resetting requires a master wrap (else
AccountNotMasterEnabled).  After a successful reset with a new password that
is its own trimmed form: the new password logs in and yields the master
wrap's DEK; the old password (trimmed form different from the new password
and from the master secret) fails InvalidPassword; logging in with the
(nonempty, trim-stable) master secret succeeded before the reset and still
succeeds after it, yielding the SAME DEK; and the stored record after reset
keeps `dekWrappedByMaster` byte-for-byte identical.  (The original claim,
which ignores trimming, is refuted by `C3_counterexample`.) -/
theorem C3_reset_account_password (s t : AuthState) (aid aid₂ : Nat)
    (acc acc₂ : AccountMeta) (wm : Envelope) (ms : Nat)
    (oldPw newPw q : String)
    (hfind : s.accounts.find? (fun a => a.id == aid) = some acc)
    (hwm : acc.dekWrappedByMaster = some wm)
    (hmm : s.masterMeta = some ms)
    (hkek : wm.kek = deriveKEK s.masterSecret ms)
    (hnew : trimString newPw = newPw)
    (hold : trimString oldPw ≠ newPw)
    (holdm : s.masterSecret = "" ∨ trimString oldPw ≠ s.masterSecret)
    (hms : s.masterSecret ≠ "")
    (hmst : trimString s.masterSecret = s.masterSecret)
    (hfind₂ : t.accounts.find? (fun a => a.id == aid₂) = some acc₂)
    (hnone₂ : acc₂.dekWrappedByMaster = none) :
    resetAccountPassword t aid₂ q = (t, some AuthError.accountNotMasterEnabled) ∧
    (resetAccountPassword s aid newPw).2 = none ∧
    (loginWithAccount (resetAccountPassword s aid newPw).1 aid newPw).2 =
      none ∧
    (loginWithAccount (resetAccountPassword s aid newPw).1 aid newPw).1.dek =
      some wm.payload ∧
    (loginWithAccount (resetAccountPassword s aid newPw).1 aid oldPw).2 =
      some AuthError.invalidPassword ∧
    (loginWithAccount s aid s.masterSecret).2 = none ∧
    (loginWithAccount s aid s.masterSecret).1.dek = some wm.payload ∧
    (loginWithAccount (resetAccountPassword s aid newPw).1 aid
        s.masterSecret).2 = none ∧
    (loginWithAccount (resetAccountPassword s aid newPw).1 aid
        s.masterSecret).1.dek = some wm.payload ∧
    ((resetAccountPassword s aid newPw).1.accounts.find?
        (fun a => a.id == aid)) =
      some (resetMeta acc newPw wm.payload s.rng) ∧
    (resetMeta acc newPw wm.payload s.rng).dekWrappedByMaster =
      acc.dekWrappedByMaster := by
  have hnm : resetAccountPassword t aid₂ q =
      (t, some AuthError.accountNotMasterEnabled) := by
    unfold resetAccountPassword
    rw [hfind₂]
    dsimp only
    rw [hnone₂]
  have heq := resetAccountPassword_eq s aid newPw acc wm ms hfind hwm hmm hkek
  have hfind2 : (resetState s acc newPw wm.payload).accounts.find?
      (fun a => a.id == aid) = some (resetMeta acc newPw wm.payload s.rng) :=
    find?_map_replace s.accounts aid acc
      (resetMeta acc newPw wm.payload s.rng) hfind rfl
  have hpre : loginWithAccount s aid s.masterSecret =
      ({ s with dek := some wm.payload, currentAccountId := some aid },
        none) := by
    rw [loginWithAccount_eq_found s aid s.masterSecret acc hfind,
        if_pos ⟨hms, hmst⟩,
        masterPathLogin_eq_some s acc aid wm ms hwm hmm hkek]
  rw [heq]
  refine ⟨hnm, rfl, ?_⟩
  rw [loginWithAccount_eq_found (resetState s acc newPw wm.payload) aid newPw
        (resetMeta acc newPw wm.payload s.rng) hfind2,
      loginWithAccount_eq_found (resetState s acc newPw wm.payload) aid oldPw
        (resetMeta acc newPw wm.payload s.rng) hfind2,
      loginWithAccount_eq_found (resetState s acc newPw wm.payload) aid
        s.masterSecret (resetMeta acc newPw wm.payload s.rng) hfind2]
  have hcondB : ¬((resetState s acc newPw wm.payload).masterSecret ≠ "" ∧
      trimString oldPw = (resetState s acc newPw wm.payload).masterSecret) :=
    fun hc => holdm.elim (fun h0 => hc.1 h0) (fun h0 => h0 hc.2)
  have hcondC : (resetState s acc newPw wm.payload).masterSecret ≠ "" ∧
      trimString s.masterSecret =
        (resetState s acc newPw wm.payload).masterSecret :=
    ⟨hms, hmst⟩
  rw [if_neg hcondB]
  rw [accountPathLogin_eq_fail (resetState s acc newPw wm.payload)
        (resetMeta acc newPw wm.payload s.rng) aid (trimString oldPw)
        (fun h2 => hold (congrArg KEK.pw h2).symm)]
  rw [if_pos hcondC]
  rw [masterPathLogin_eq_some (resetState s acc newPw wm.payload)
        (resetMeta acc newPw wm.payload s.rng) aid wm ms hwm hmm hkek]
  by_cases hpm : newPw = s.masterSecret
  · have hcondA : (resetState s acc newPw wm.payload).masterSecret ≠ "" ∧
        trimString newPw = (resetState s acc newPw wm.payload).masterSecret :=
      ⟨hms, hnew.trans hpm⟩
    rw [if_pos hcondA]
    exact ⟨rfl, rfl, rfl, by rw [hpre], by rw [hpre], rfl, rfl, hfind2, rfl⟩
  · have hcondA : ¬((resetState s acc newPw wm.payload).masterSecret ≠ "" ∧
        trimString newPw = (resetState s acc newPw wm.payload).masterSecret) :=
      fun hc => hpm (hnew.symm.trans hc.2)
    rw [if_neg hcondA]
    rw [accountPathLogin_eq_success (resetState s acc newPw wm.payload)
          (resetMeta acc newPw wm.payload s.rng) aid (trimString newPw) wm
          (by rw [hnew]; rfl) hwm]
    exact ⟨rfl, rfl, rfl, by rw [hpre], by rw [hpre], rfl, rfl, hfind2, rfl⟩

/-- C3 counterexample: reset account 1's password to `q ` (trailing space);
the reset succeeds, but logging in with exactly that new password fails with
InvalidPassword, because login trims the typed password while reset does
not. -/
theorem C3_counterexample :
    (resetAccountPassword sC3state 1 "q ").2 = none ∧
    (loginWithAccount (resetAccountPassword sC3state 1 "q ").1 1 "q ").2 =
      some AuthError.invalidPassword := by decide

/-- C3 witness: the amended theorem applied to the concrete state. -/
theorem C3_witness :
    (resetAccountPassword sC3state 1 "new").2 = none ∧
    (loginWithAccount (resetAccountPassword sC3state 1 "new").1 1 "new").2 =
      none ∧
    (loginWithAccount (resetAccountPassword sC3state 1 "new").1 1 "old").2 =
      some AuthError.invalidPassword ∧
    (loginWithAccount (resetAccountPassword sC3state 1 "new").1 1 "M").1.dek =
      some 5 :=
  have h := C3_reset_account_password sC3state sC2state 1 1 accWithMaster
    accNoMaster (wrapDEK 5 (deriveKEK "M" 0) 6) 0 "old" "new" "z"
    (by decide) rfl rfl rfl (by decide) (by decide)
    (Or.inr (by decide)) (by decide) (by decide) (by decide) rfl
  ⟨h.2.1, h.2.2.1, h.2.2.2.2.1, h.2.2.2.2.2.2.2.2.1⟩

/-- A successful account unwrap returns the envelope's payload. -/
theorem unwrapDEK_some (w : Envelope) (kek : KEK) (d : Nat)
    (hw : unwrapDEK w kek = some d) : d = w.payload := by
  unfold unwrapDEK at hw
  split at hw
  · exact (Option.some.inj hw).symm
  · exact Option.noConfusion hw

/-- The account path of login preserves the dual-wrap invariant: a migration
wraps exactly the DEK just unwrapped from the account envelope. -/
theorem stateInv_accountPathLogin (s : AuthState) (acc : AccountMeta)
    (id : Nat) (pw : String) (h : stateInv s = true) :
    stateInv (accountPathLogin s acc id pw).1 = true := by
  unfold accountPathLogin
  cases hw : unwrapDEK acc.dekWrappedByAccount (deriveKEK pw acc.saltB64) with
  | none => exact h
  | some d =>
    have hd : d = acc.dekWrappedByAccount.payload := unwrapDEK_some _ _ _ hw
    dsimp only
    split
    · cases hm : s.masterMeta with
      | none => exact h
      | some mmSalt =>
        dsimp only
        show (s.accounts.map fun a =>
            if a.id = acc.id then
              { acc with
                dekWrappedByMaster :=
                  some (wrapDEK d (deriveKEK s.masterSecret mmSalt) s.rng) }
            else a).all wrapsOk = true
        apply all_wrapsOk_map_replace
        · exact h
        · simp [wrapsOk, wrapDEK, hd]
    · exact h

/-- Password reset preserves the dual-wrap invariant: the replacement wrap
holds exactly the DEK recovered from the (untouched) master wrap. -/
theorem stateInv_resetAccountPassword (s : AuthState) (aid : Nat)
    (npw : String) (h : stateInv s = true) :
    stateInv (resetAccountPassword s aid npw).1 = true := by
  unfold resetAccountPassword
  cases hfind : s.accounts.find? (fun a => a.id == aid) with
  | none => exact h
  | some acc =>
    dsimp only
    cases hwm : acc.dekWrappedByMaster with
    | none => exact h
    | some wm =>
      dsimp only
      cases hm : s.masterMeta with
      | none => exact h
      | some mmSalt =>
        dsimp only
        cases hw : unwrapDEK wm (deriveKEK s.masterSecret mmSalt) with
        | none => exact h
        | some d =>
          have hd : d = wm.payload := unwrapDEK_some _ _ _ hw
          dsimp only
          show (s.accounts.map fun a =>
              if a.id = acc.id then
                { id := acc.id, name := acc.name, createdAt := acc.createdAt,
                  saltB64 := s.rng,
                  dekWrappedByAccount :=
                    wrapDEK d (deriveKEK npw s.rng) (s.rng + 1),
                  dekWrappedByMaster := some wm }
              else a).all wrapsOk = true
          apply all_wrapsOk_map_replace
          · exact h
          · simp [wrapsOk, wrapDEK, hd]

/-- C4: every operation of the service — registration, login (including the
login-time migration step), password reset, logout and note saving —
preserves the invariant that whenever an account has both envelopes, they
wrap bit-identical DEKs. -/
theorem C4_dual_wrap_invariant (s : AuthState) (name pw password npw : String)
    (id aid : Nat) (X : List Nat) (h : stateInv s = true) :
    stateInv (registerAccount s name pw).1 = true ∧
    stateInv (loginWithAccount s id password).1 = true ∧
    stateInv (resetAccountPassword s aid npw).1 = true ∧
    stateInv (logout s) = true ∧
    stateInv (saveNotes s X).1 = true := by
  refine ⟨?_, ?_, stateInv_resetAccountPassword s aid npw h, h, ?_⟩
  · cases hmm : s.masterMeta with
    | none =>
      unfold registerAccount
      rw [hmm]
      exact h
    | some ms =>
      rw [registerAccount_eq s name pw ms hmm]
      show (regMeta s name pw ms :: s.accounts).all wrapsOk = true
      rw [List.all_cons,
          show wrapsOk (regMeta s name pw ms) = true from
            by simp [wrapsOk, regMeta, wrapDEK],
          Bool.true_and]
      exact h
  · cases hfind : s.accounts.find? (fun a => a.id == id) with
    | none =>
      unfold loginWithAccount
      rw [hfind]
      exact h
    | some acc =>
      rw [loginWithAccount_eq_found s id password acc hfind]
      split
      · show (masterPathLogin s acc id).1.accounts.all wrapsOk = true
        rw [(masterPathLogin_shape s acc id).2]
        exact h
      · exact stateInv_accountPathLogin s acc id (trimString password) h
  · unfold saveNotes
    cases hd : s.dek with
    | none => exact h
    | some d =>
      cases hc : s.currentAccountId with
      | none => exact h
      | some i => exact h

/-- C4 witness: the invariant checked on a concrete state through all five
operations. -/
theorem C4_witness :
    stateInv (registerAccount sC3state "w" "v").1 = true ∧
    stateInv (loginWithAccount sC3state 1 "old").1 = true ∧
    stateInv (resetAccountPassword sC3state 1 "v2").1 = true ∧
    stateInv (logout sC3state) = true ∧
    stateInv (saveNotes sC3state [1]).1 = true :=
  C4_dual_wrap_invariant sC3state "w" "v" "old" "v2" 1 1 [1] (by decide)

end DailyNotes
